import Mathlib

/-!
Shallow embedding of src/homeassistant/components/abode/__init__.py
(the Abode security-system integration for Home Assistant).

The module is glue between the external abodepy vendor SDK and the Home
Assistant host framework.  The embedding models the host-visible state the
module mutates (registered services, the shared AbodeSystem context stored
under hass.data[DOMAIN], the vendor event-callback registrations, the
shutdown-bus listener, the forwarded entity platforms) and the traces of
vendor SDK calls the module issues (events.start, events.stop, logout).
External exceptions (AbodeException, ConnectTimeout, HTTPError from the
vendor/requests libraries, and Python KeyError/TypeError) are modelled as an
inductive error type carried in Except.
-/

namespace Abode

/-- DOMAIN from the integration's const module: the key of the shared context
in the host data registry and the namespace of the registered services. -/
def DOMAIN : String := "abode"

def SERVICE_SETTINGS : String := "change_setting"

def SERVICE_CAPTURE_IMAGE : String := "capture_image"

def SERVICE_TRIGGER : String := "trigger_quick_action"

def ATTR_DEVICE_ID : String := "device_id"

def ATTR_DEVICE_NAME : String := "device_name"

def ATTR_DEVICE_TYPE : String := "device_type"

def ATTR_EVENT_CODE : String := "event_code"

def ATTR_EVENT_NAME : String := "event_name"

def ATTR_EVENT_TYPE : String := "event_type"

def ATTR_EVENT_UTC : String := "event_utc"

def ATTR_SETTING : String := "setting"

def ATTR_USER_NAME : String := "user_name"

def ATTR_VALUE : String := "value"

/-- ATTR_DATE from homeassistant.const (external host framework constant). -/
def ATTR_DATE : String := "date"

/-- ATTR_TIME from homeassistant.const (external host framework constant). -/
def ATTR_TIME : String := "time"

/-- ABODE_PLATFORMS: the entity platforms forwarded on setup and unloaded on
unload. -/
def ABODE_PLATFORMS : List String :=
  ["alarm_control_panel", "binary_sensor", "lock", "switch", "cover",
   "camera", "light", "sensor"]

/-- The five abodepy timeline event groups the module registers callbacks
for (TIMELINE.ALARM_GROUP and so on).  The groups are opaque vendor
constants; only their identity matters here. -/
inductive TimelineGroup
  | ALARM_GROUP
  | ALARM_END_GROUP
  | PANEL_FAULT_GROUP
  | PANEL_RESTORE_GROUP
  | AUTOMATION_GROUP
deriving DecidableEq

/-- A member of the shared context's device registry
(hass.data[DOMAIN].devices): a host entity wrapping one vendor device.  Only
the host entity id is needed by the service handlers. -/
structure RegisteredDevice where
  entity_id : String
deriving DecidableEq

/-- AbodeSystem: the shared context.  The vendor client handle itself is
represented by the traces of vendor calls the functions below produce;
logout_listener records whether the detach handle returned by the host bus
for the shutdown listener is stored (None in Python when false). -/
structure AbodeSystem where
  polling : Bool
  devices : List RegisteredDevice
  logout_listener : Bool
deriving DecidableEq

/-- The host-visible state the module touches: the services registered under
DOMAIN, hass.data[DOMAIN] (none when the key is absent), the vendor event
groups with a registered relay callback, whether the EVENT_HOMEASSISTANT_STOP
listener is attached, and the forwarded entity platforms. -/
structure HassState where
  services : List String
  data : Option AbodeSystem
  abodeEventCallbacks : List TimelineGroup
  stopListenerAttached : Bool
  platformsForwarded : List String
deriving DecidableEq

/-- The host state before the integration instance is set up. -/
def initState : HassState :=
  { services := [], data := none, abodeEventCallbacks := [],
    stopListenerAttached := false, platformsForwarded := [] }

/-- Python exceptions that can cross the modelled code: the three kinds the
setup try block names, any other exception, and the KeyError/TypeError a
missing hass.data key or a None listener handle would raise. -/
inductive PyExc
  | abodeException
  | connectTimeout
  | httpError
  | otherException
  | keyError
  | typeError
deriving DecidableEq

/-- Calls into the vendor SDK client issued by setup and teardown. -/
inductive VendorCall
  | eventsStart
  | eventsStop
  | logout
deriving DecidableEq

/-- setup_hass_events: starts the vendor event stream when the shared
context is not in polling mode, and attaches the shutdown listener, storing
its detach handle on the shared context.  Reading hass.data[DOMAIN] raises
KeyError when the key is absent.  Returns the new state and the vendor calls
made. -/
def setup_hass_events (hass : HassState) :
    Except PyExc (HassState × List VendorCall) :=
  match hass.data with
  | none => Except.error PyExc.keyError
  | some sys =>
      let calls := if sys.polling then [] else [VendorCall.eventsStart]
      Except.ok
        ({ hass with
            data := some { sys with logout_listener := true },
            stopListenerAttached := true },
          calls)

/-- setup_hass_services: registers the three service handlers under DOMAIN.
Registration itself reads no shared state (the handler closures read
hass.data only when invoked). -/
def setup_hass_services (hass : HassState) : HassState :=
  { hass with
      services :=
        hass.services ++ [SERVICE_SETTINGS, SERVICE_CAPTURE_IMAGE, SERVICE_TRIGGER] }

/-- The fixed list of vendor event groups setup_abode_events iterates over. -/
def abodeEvents : List TimelineGroup :=
  [TimelineGroup.ALARM_GROUP, TimelineGroup.ALARM_END_GROUP,
   TimelineGroup.PANEL_FAULT_GROUP, TimelineGroup.PANEL_RESTORE_GROUP,
   TimelineGroup.AUTOMATION_GROUP]

/-- setup_abode_events: registers the relay callback for each of the five
vendor event groups.  Reading hass.data[DOMAIN] raises KeyError when the key
is absent. -/
def setup_abode_events (hass : HassState) : Except PyExc HassState :=
  match hass.data with
  | none => Except.error PyExc.keyError
  | some _ =>
      Except.ok
        { hass with abodeEventCallbacks := hass.abodeEventCallbacks ++ abodeEvents }

/-- The exception kinds named by the except clause of async_setup_entry:
AbodeException, ConnectTimeout, HTTPError. -/
def setup_exc_caught : PyExc → Bool
  | PyExc.abodeException => true
  | PyExc.connectTimeout => true
  | PyExc.httpError => true
  | _ => false

/-- async_setup_entry: constructs the vendor client (ctor models the
outcome: none = success, some e = the constructor raised e).  On a caught
exception the function logs and returns False with the host state untouched;
an uncaught exception propagates.  On success it stores the shared context,
forwards the entity platforms, then runs setup_hass_events,
setup_hass_services and setup_abode_events, returning True together with the
vendor calls made. -/
def async_setup_entry (hass : HassState) (polling : Bool)
    (ctor : Option PyExc) : Except PyExc (HassState × List VendorCall × Bool) :=
  match ctor with
  | some e =>
      if setup_exc_caught e then Except.ok (hass, [], false) else Except.error e
  | none =>
      let s1 := { hass with
        data := some { polling := polling, devices := [], logout_listener := false } }
      let s2 := { s1 with
        platformsForwarded := s1.platformsForwarded ++ ABODE_PLATFORMS }
      match setup_hass_events s2 with
      | Except.error e => Except.error e
      | Except.ok (s3, calls) =>
          let s4 := setup_hass_services s3
          match setup_abode_events s4 with
          | Except.error e => Except.error e
          | Except.ok s5 => Except.ok (s5, calls, true)

/-- async_unload_entry: removes the three services, unloads every forwarded
platform, then unconditionally calls events.stop and logout on the vendor
client (no polling check appears in this function), calls the stored
logout_listener detach handle (TypeError when it is None) and pops the
shared context.  Returns the new state, the vendor calls made, and True. -/
def async_unload_entry (hass : HassState) :
    Except PyExc (HassState × List VendorCall × Bool) :=
  let s1 := { hass with
    services :=
      ((hass.services.filter fun n => n != SERVICE_SETTINGS).filter
          fun n => n != SERVICE_CAPTURE_IMAGE).filter
        fun n => n != SERVICE_TRIGGER }
  let s2 := { s1 with
    platformsForwarded :=
      s1.platformsForwarded.filter fun p => ! decide (p ∈ ABODE_PLATFORMS) }
  match s2.data with
  | none => Except.error PyExc.keyError
  | some sys =>
      if sys.logout_listener then
        Except.ok
          ({ s2 with data := none, stopListenerAttached := false },
            [VendorCall.eventsStop, VendorCall.logout], true)
      else Except.error PyExc.typeError

/-- Exceptions a vendor SDK call made by a service handler may raise:
AbodeException (with its message) or anything else. -/
inductive VendorExc
  | abodeException (msg : String)
  | otherException
deriving DecidableEq

/-- The change_setting service handler.  The vendor set_setting call's
outcome is the argument; an AbodeException is caught and logged as a warning
(the returned list holds the warning messages logged), everything else
propagates. -/
def change_setting (set_setting_result : Except VendorExc Unit) :
    Except VendorExc (List String) :=
  match set_setting_result with
  | Except.ok _ => Except.ok []
  | Except.error (VendorExc.abodeException msg) => Except.ok [msg]
  | Except.error e => Except.error e

/-- The capture_image service handler: filters the shared registry down to
the devices whose entity id is in the call's entity_ids list and calls
capture on each, in order, with no exception handling.  capture models the
vendor call per device; the result lists the devices acted on. -/
def capture_image (devices : List RegisteredDevice) (entity_ids : List String)
    (capture : RegisteredDevice → Except VendorExc Unit) :
    Except VendorExc (List RegisteredDevice) :=
  let target_devices :=
    devices.filter fun device => decide (device.entity_id ∈ entity_ids)
  target_devices.foldlM
    (fun done device => (capture device).map fun _ => done ++ [device]) []

/-- The trigger_quick_action service handler: same shape as capture_image
with the per-device vendor call trigger. -/
def trigger_quick_action (devices : List RegisteredDevice)
    (entity_ids : List String)
    (trigger : RegisteredDevice → Except VendorExc Unit) :
    Except VendorExc (List RegisteredDevice) :=
  let target_devices :=
    devices.filter fun device => decide (device.entity_id ∈ entity_ids)
  target_devices.foldlM
    (fun done device => (trigger device).map fun _ => done ++ [device]) []

/-- The relay callback registered by setup_abode_events for a given group
(partial application of the source's event_callback to the group).  Given
the vendor payload dictionary (a lookup function), it returns the host bus
event fired: the event name (the group) and the attribute dictionary, built
with a default of the empty string for every missing key. -/
def event_callback (event : TimelineGroup)
    (event_json : String → Option String) :
    TimelineGroup × List (String × String) :=
  (event,
    [(ATTR_DEVICE_ID, (event_json ATTR_DEVICE_ID).getD ""),
     (ATTR_DEVICE_NAME, (event_json ATTR_DEVICE_NAME).getD ""),
     (ATTR_DEVICE_TYPE, (event_json ATTR_DEVICE_TYPE).getD ""),
     (ATTR_EVENT_CODE, (event_json ATTR_EVENT_CODE).getD ""),
     (ATTR_EVENT_NAME, (event_json ATTR_EVENT_NAME).getD ""),
     (ATTR_EVENT_TYPE, (event_json ATTR_EVENT_TYPE).getD ""),
     (ATTR_EVENT_UTC, (event_json ATTR_EVENT_UTC).getD ""),
     (ATTR_USER_NAME, (event_json ATTR_USER_NAME).getD ""),
     (ATTR_DATE, (event_json ATTR_DATE).getD ""),
     (ATTR_TIME, (event_json ATTR_TIME).getD "")])

/-- The vendor device wrapped by an AbodeDevice entity. -/
structure VDevice where
  device_id : String
deriving DecidableEq

/-- The vendor automation wrapped by an AbodeAutomation entity. -/
structure VAutomation where
  automation_id : String
deriving DecidableEq

/-- Vendor callback (de)registrations an entity hook issues. -/
inductive EntityAction
  | addDeviceCallback (device_id : String)
  | removeAllDeviceCallbacks (device_id : String)
  | addEventCallback (event : TimelineGroup)
deriving DecidableEq

/-- What an entity's vendor-triggered update callback does on the host. -/
inductive RefreshAction
  | scheduleUpdateHaState
  | vendorRefresh
deriving DecidableEq

/-- AbodeDevice: the device entity adapter, holding the shared context and
the wrapped vendor device. -/
structure AbodeDevice where
  data : AbodeSystem
  device : VDevice
deriving DecidableEq

/-- AbodeDevice.async_added_to_hass subscribes the update callback for the
wrapped device's id. -/
def AbodeDevice.async_added_to_hass (e : AbodeDevice) : List EntityAction :=
  [EntityAction.addDeviceCallback e.device.device_id]

/-- AbodeDevice.async_will_remove_from_hass removes all device callbacks for
the wrapped device's id. -/
def AbodeDevice.async_will_remove_from_hass (e : AbodeDevice) :
    List EntityAction :=
  [EntityAction.removeAllDeviceCallbacks e.device.device_id]

/-- AbodeDevice.should_poll delegates to the shared context's polling flag. -/
def AbodeDevice.should_poll (e : AbodeDevice) : Bool := e.data.polling

/-- The source's AbodeDevice update callback schedules a host state update. -/
def AbodeDevice.update_callback (_ : AbodeDevice) : List RefreshAction :=
  [RefreshAction.scheduleUpdateHaState]

/-- AbodeAutomation: the automation entity adapter; event is the optional
vendor event group (default None in the source constructor). -/
structure AbodeAutomation where
  data : AbodeSystem
  automation : VAutomation
  event : Option TimelineGroup
deriving DecidableEq

/-- AbodeAutomation.async_added_to_hass subscribes the update callback for
the configured event group only when one is set. -/
def AbodeAutomation.async_added_to_hass (e : AbodeAutomation) :
    List EntityAction :=
  match e.event with
  | some ev => [EntityAction.addEventCallback ev]
  | none => []

/-- AbodeAutomation defines no async_will_remove_from_hass override; the
inherited host Entity hook is a no-op, so detaching issues no vendor
callback removal. -/
def AbodeAutomation.async_will_remove_from_hass (_ : AbodeAutomation) :
    List EntityAction :=
  []

/-- AbodeAutomation.should_poll delegates to the shared context's polling
flag. -/
def AbodeAutomation.should_poll (e : AbodeAutomation) : Bool := e.data.polling

/-- The source's AbodeAutomation update callback refreshes the vendor object
and schedules a host state update. -/
def AbodeAutomation.update_callback (_ : AbodeAutomation) : List RefreshAction :=
  [RefreshAction.vendorRefresh, RefreshAction.scheduleUpdateHaState]

/-! Concrete states used by counterexamples and witnesses. -/

/-- A shared context in polling mode with the shutdown listener's detach
handle stored. -/
def pollingSystem : AbodeSystem :=
  { polling := true, devices := [], logout_listener := true }

/-- A fully set-up host state holding pollingSystem. -/
def pollingState : HassState :=
  { services := [SERVICE_SETTINGS, SERVICE_CAPTURE_IMAGE, SERVICE_TRIGGER],
    data := some pollingSystem,
    abodeEventCallbacks := abodeEvents,
    stopListenerAttached := true,
    platformsForwarded := ABODE_PLATFORMS }

/-- A registry entry for a camera entity. -/
def cam1 : RegisteredDevice := { entity_id := "camera.living_room" }

/-- A device entity over pollingSystem. -/
def dev1 : AbodeDevice :=
  { data := pollingSystem, device := { device_id := "ZB:00000001" } }

/-- An automation entity over pollingSystem with an event group set. -/
def auto1 : AbodeAutomation :=
  { data := pollingSystem, automation := { automation_id := "7" },
    event := some TimelineGroup.AUTOMATION_GROUP }

/-- The host state a successful setup from the fresh state produces. -/
def setupState (polling : Bool) : HassState :=
  { services := [SERVICE_SETTINGS, SERVICE_CAPTURE_IMAGE, SERVICE_TRIGGER],
    data := some { polling := polling, devices := [], logout_listener := true },
    abodeEventCallbacks := abodeEvents,
    stopListenerAttached := true,
    platformsForwarded := ABODE_PLATFORMS }

/-- The host state unload leaves behind: no services, no shared context, no
attached shutdown listener, no forwarded platforms.  (The vendor-side event
callback registrations are not touched by unload.) -/
def unloadedState : HassState :=
  { services := [], data := none, abodeEventCallbacks := abodeEvents,
    stopListenerAttached := false, platformsForwarded := [] }

/-! Claim C1 -/

/-- Claim C1 counterexample: with the shared context in polling mode
(polling = true), async_unload_entry still issues the events.stop vendor
call - the stop is not skipped when the polling flag is true, contrary to
the claim.  The polling check appears only in the shutdown listener's logout
callback, not in async_unload_entry. -/
theorem claim_C1_counterexample :
    pollingSystem.polling = true ∧
    async_unload_entry pollingState =
      Except.ok
        (unloadedState, [VendorCall.eventsStop, VendorCall.logout], true) :=
  ⟨rfl, rfl⟩

/-- Claim C1 (amended): on unload the teardown removes all three registered
services, unloads every forwarded entity platform, issues exactly the vendor
calls events.stop and logout - the stop unconditionally, whatever the
polling flag - detaches the shutdown listener and removes the shared
context. -/
theorem claim_C1_theorem (hass : HassState) (sys : AbodeSystem)
    (hd : hass.data = some sys) (hl : sys.logout_listener = true) :
    ∃ s2 : HassState,
      async_unload_entry hass =
        Except.ok (s2, [VendorCall.eventsStop, VendorCall.logout], true) ∧
      SERVICE_SETTINGS ∉ s2.services ∧
      SERVICE_CAPTURE_IMAGE ∉ s2.services ∧
      SERVICE_TRIGGER ∉ s2.services ∧
      (∀ p ∈ ABODE_PLATFORMS, p ∉ s2.platformsForwarded) ∧
      s2.stopListenerAttached = false ∧
      s2.data = none := by
  refine ⟨{ hass with
      services :=
        ((hass.services.filter fun n => n != SERVICE_SETTINGS).filter
            fun n => n != SERVICE_CAPTURE_IMAGE).filter
          fun n => n != SERVICE_TRIGGER,
      platformsForwarded :=
        hass.platformsForwarded.filter fun p => ! decide (p ∈ ABODE_PLATFORMS),
      data := none,
      stopListenerAttached := false }, ?_, ?_, ?_, ?_, ?_, rfl, rfl⟩
  · simp [async_unload_entry, hd, hl]
  · simp [List.mem_filter]
  · simp [List.mem_filter]
  · simp [List.mem_filter]
  · intro p hp
    simp [List.mem_filter, hp]

/-- Witness for claim C1 at the concrete polling-mode state. -/
theorem claim_C1_witness :
    ∃ s2 : HassState,
      async_unload_entry pollingState =
        Except.ok (s2, [VendorCall.eventsStop, VendorCall.logout], true) ∧
      SERVICE_SETTINGS ∉ s2.services ∧
      SERVICE_CAPTURE_IMAGE ∉ s2.services ∧
      SERVICE_TRIGGER ∉ s2.services ∧
      (∀ p ∈ ABODE_PLATFORMS, p ∉ s2.platformsForwarded) ∧
      s2.stopListenerAttached = false ∧
      s2.data = none :=
  claim_C1_theorem pollingState pollingSystem rfl rfl

/-! Claim C2 -/

/-- Claim C2 counterexample: capture_image has no exception handling, so a
vendor AbodeException raised by the per-device capture call propagates out
of the handler instead of being logged and swallowed. -/
theorem claim_C2_counterexample :
    capture_image [cam1] ["camera.living_room"]
        (fun _ => Except.error (VendorExc.abodeException "request failed")) =
      Except.error (VendorExc.abodeException "request failed") :=
  rfl

/-- Claim C2 (amended): only change_setting swallows vendor exceptions - an
AbodeException there is logged as a warning and the handler returns
normally - while capture_image and trigger_quick_action perform their
per-device vendor calls with no handling, so a vendor exception raised there
propagates to the caller. -/
theorem claim_C2_theorem :
    (∀ msg : String,
        change_setting (Except.error (VendorExc.abodeException msg)) =
          Except.ok [msg]) ∧
    (∀ (d : RegisteredDevice) (entity_ids : List String) (e : VendorExc),
        d.entity_id ∈ entity_ids →
        capture_image [d] entity_ids (fun _ => Except.error e) =
          Except.error e) ∧
    (∀ (d : RegisteredDevice) (entity_ids : List String) (e : VendorExc),
        d.entity_id ∈ entity_ids →
        trigger_quick_action [d] entity_ids (fun _ => Except.error e) =
          Except.error e) := by
  refine ⟨fun msg => rfl, ?_, ?_⟩ <;>
    · intro d entity_ids e h
      simp [capture_image, trigger_quick_action, h, List.foldlM, Except.map]

/-! Claim C3 -/

/-- Claim C3: the setup try block catches exactly the kinds AbodeException,
ConnectTimeout and HTTPError raised while constructing the vendor client,
returning False (a surfaced setup failure) in each of those cases; any other
exception is not caught and propagates. -/
theorem claim_C3_theorem (hass : HassState) (polling : Bool) :
    async_setup_entry hass polling (some PyExc.abodeException) =
      Except.ok (hass, [], false) ∧
    async_setup_entry hass polling (some PyExc.connectTimeout) =
      Except.ok (hass, [], false) ∧
    async_setup_entry hass polling (some PyExc.httpError) =
      Except.ok (hass, [], false) ∧
    async_setup_entry hass polling (some PyExc.otherException) =
      Except.error PyExc.otherException :=
  ⟨rfl, rfl, rfl, rfl⟩

/-! Claim C4 -/

/-- Claim C4 counterexample: an automation entity constructed with an event
group subscribes a vendor callback on attach, yet its detach hook issues no
callback removal - the vendor callback is never unsubscribed, contrary to
the claim that both adapter types unsubscribe on detach. -/
theorem claim_C4_counterexample :
    AbodeAutomation.async_added_to_hass auto1 =
      [EntityAction.addEventCallback TimelineGroup.AUTOMATION_GROUP] ∧
    AbodeAutomation.async_will_remove_from_hass auto1 = [] :=
  ⟨rfl, rfl⟩

/-- Claim C4 (amended): the device entity adapter subscribes a vendor device
callback on attach - one that schedules a host state refresh - and removes
all its device callbacks on detach; the automation entity adapter subscribes
a vendor event callback on attach only when constructed with an event group,
and its detach hook performs no unsubscription. -/
theorem claim_C4_theorem (d : AbodeDevice) (a : AbodeAutomation) :
    d.async_added_to_hass =
      [EntityAction.addDeviceCallback d.device.device_id] ∧
    d.async_will_remove_from_hass =
      [EntityAction.removeAllDeviceCallbacks d.device.device_id] ∧
    RefreshAction.scheduleUpdateHaState ∈ d.update_callback ∧
    (∀ ev : TimelineGroup, a.event = some ev →
        a.async_added_to_hass = [EntityAction.addEventCallback ev]) ∧
    (a.event = none → a.async_added_to_hass = []) ∧
    a.async_will_remove_from_hass = [] ∧
    RefreshAction.scheduleUpdateHaState ∈ a.update_callback := by
  refine ⟨rfl, rfl, by simp [AbodeDevice.update_callback], ?_, ?_, rfl,
    by simp [AbodeAutomation.update_callback]⟩
  · intro ev h
    simp [AbodeAutomation.async_added_to_hass, h]
  · intro h
    simp [AbodeAutomation.async_added_to_hass, h]

/-! Claim C5 -/

/-- Claim C5: for every vendor payload, the attribute record of the
republished host bus event carries exactly the ten fixed keys - device id,
device name, device type, event code, event name, event type, event UTC
time, user name, date, time - in order and without duplicates, whatever keys
the payload holds. -/
theorem claim_C5_theorem (event : TimelineGroup)
    (event_json : String → Option String) :
    ((event_callback event event_json).2.map Prod.fst =
      [ATTR_DEVICE_ID, ATTR_DEVICE_NAME, ATTR_DEVICE_TYPE, ATTR_EVENT_CODE,
       ATTR_EVENT_NAME, ATTR_EVENT_TYPE, ATTR_EVENT_UTC, ATTR_USER_NAME,
       ATTR_DATE, ATTR_TIME]) ∧
    [ATTR_DEVICE_ID, ATTR_DEVICE_NAME, ATTR_DEVICE_TYPE, ATTR_EVENT_CODE,
     ATTR_EVENT_NAME, ATTR_EVENT_TYPE, ATTR_EVENT_UTC, ATTR_USER_NAME,
     ATTR_DATE, ATTR_TIME].Nodup :=
  ⟨rfl, by decide⟩

/-! Claim C6 -/

/-- Claim C6: with a shared context present, setup_abode_events registers
the relay callback for exactly the five fixed vendor event groups - alarm,
alarm end, panel fault, panel restore, automation - appending them once to
the callback registry, and the relay for a group republishes every delivered
event under that group's name. -/
theorem claim_C6_theorem (hass : HassState) (sys : AbodeSystem) :
    setup_abode_events { hass with data := some sys } =
      Except.ok
        { hass with
            data := some sys,
            abodeEventCallbacks := hass.abodeEventCallbacks ++
              [TimelineGroup.ALARM_GROUP, TimelineGroup.ALARM_END_GROUP,
               TimelineGroup.PANEL_FAULT_GROUP,
               TimelineGroup.PANEL_RESTORE_GROUP,
               TimelineGroup.AUTOMATION_GROUP] } ∧
    (∀ (g : TimelineGroup) (payload : String → Option String),
        (event_callback g payload).1 = g) :=
  ⟨rfl, fun _ _ => rfl⟩

/-! Claim C7 -/

/-- Folding a per-device vendor call that always succeeds appends every
target device to the accumulator. -/
theorem foldlM_targets_ok (l acc : List RegisteredDevice) :
    (l.foldlM (fun done device =>
        (Except.ok (done ++ [device]) :
          Except VendorExc (List RegisteredDevice))) acc) =
      Except.ok (acc ++ l) := by
  induction l generalizing acc with
  | nil => simp [List.foldlM_nil, pure, Except.pure]
  | cons d t ih =>
      rw [List.foldlM_cons]
      exact (ih (acc ++ [d])).trans (by simp)

/-- Claim C7: capture_image and trigger_quick_action forward the vendor
action to exactly the registry devices whose entity id is in the provided
list: the acted-on devices are the filtered registry, and membership in that
filtered list is equivalent to being a registry device whose entity id is
listed. -/
theorem claim_C7_theorem (devices : List RegisteredDevice)
    (entity_ids : List String) :
    capture_image devices entity_ids (fun _ => Except.ok ()) =
      Except.ok
        (devices.filter fun d => decide (d.entity_id ∈ entity_ids)) ∧
    trigger_quick_action devices entity_ids (fun _ => Except.ok ()) =
      Except.ok
        (devices.filter fun d => decide (d.entity_id ∈ entity_ids)) ∧
    (∀ d : RegisteredDevice,
        d ∈ devices.filter (fun d => decide (d.entity_id ∈ entity_ids)) ↔
          d ∈ devices ∧ d.entity_id ∈ entity_ids) := by
  refine ⟨?_, ?_, fun d => by simp [List.mem_filter]⟩ <;>
    exact foldlM_targets_ok
      (devices.filter fun d => decide (d.entity_id ∈ entity_ids)) []

/-! Claim C8 -/

/-- Claim C8: one lifecycle of the integration instance.  The shared context
is the single optional entry of the host data registry; setup from the fresh
state registers each of the three services and each of the five vendor event
groups exactly once (the resulting lists are exactly the three service names
and the five groups, without duplicates); after unload none of the three
services remains registered, the shutdown listener is detached and the
shared context is removed. -/
theorem claim_C8_theorem (polling : Bool) :
    ∃ (s1 : HassState) (calls : List VendorCall) (s2 : HassState),
      async_setup_entry initState polling none = Except.ok (s1, calls, true) ∧
      s1.services = [SERVICE_SETTINGS, SERVICE_CAPTURE_IMAGE, SERVICE_TRIGGER] ∧
      s1.abodeEventCallbacks = abodeEvents ∧
      s1.abodeEventCallbacks.Nodup ∧
      async_unload_entry s1 =
        Except.ok (s2, [VendorCall.eventsStop, VendorCall.logout], true) ∧
      s2.services = [] ∧
      s2.stopListenerAttached = false ∧
      s2.data = none := by
  cases polling with
  | false =>
      exact ⟨setupState false, [VendorCall.eventsStart], unloadedState,
        rfl, rfl, rfl, by decide, rfl, rfl, rfl, rfl⟩
  | true =>
      exact ⟨setupState true, [], unloadedState,
        rfl, rfl, rfl, by decide, rfl, rfl, rfl, rfl⟩

/-! Claim C9 -/

/-- Claim C9: when the vendor client construction raises one of the caught
exception kinds, async_setup_entry returns False and the host state is
returned exactly as it was: no shared context stored, no platforms
forwarded, no services or event callbacks registered. -/
theorem claim_C9_theorem (hass : HassState) (polling : Bool) (e : PyExc)
    (h : setup_exc_caught e = true) :
    async_setup_entry hass polling (some e) = Except.ok (hass, [], false) := by
  simp [async_setup_entry, h]

/-- Witness for claim C9 at a concrete caught exception. -/
theorem claim_C9_witness :
    async_setup_entry initState true (some PyExc.connectTimeout) =
      Except.ok (initState, [], false) :=
  claim_C9_theorem initState true PyExc.connectTimeout rfl

/-! Claim C10 -/

/-- Claim C10: the polling flag is honoured consistently: setup starts the
vendor event stream if and only if the shared context's polling flag is
false, and both entity adapters' should_poll return exactly the shared
context's polling flag. -/
theorem claim_C10_theorem (hass : HassState) (sys : AbodeSystem)
    (d : AbodeDevice) (a : AbodeAutomation)
    (hd : hass.data = some sys) (hdd : d.data = sys) (haa : a.data = sys) :
    (∃ (s3 : HassState) (calls : List VendorCall),
        setup_hass_events hass = Except.ok (s3, calls) ∧
        (VendorCall.eventsStart ∈ calls ↔ sys.polling = false)) ∧
    d.should_poll = sys.polling ∧
    a.should_poll = sys.polling := by
  refine ⟨⟨{ hass with
      data := some { sys with logout_listener := true },
      stopListenerAttached := true },
    if sys.polling then [] else [VendorCall.eventsStart], ?_, ?_⟩, ?_, ?_⟩
  · simp [setup_hass_events, hd]
  · cases sys.polling <;> simp
  · show d.data.polling = sys.polling
    rw [hdd]
  · show a.data.polling = sys.polling
    rw [haa]

/-- Witness for claim C10 at the concrete polling-mode state and entities. -/
theorem claim_C10_witness :
    (∃ (s3 : HassState) (calls : List VendorCall),
        setup_hass_events pollingState = Except.ok (s3, calls) ∧
        (VendorCall.eventsStart ∈ calls ↔ pollingSystem.polling = false)) ∧
    AbodeDevice.should_poll dev1 = pollingSystem.polling ∧
    AbodeAutomation.should_poll auto1 = pollingSystem.polling :=
  claim_C10_theorem pollingState pollingSystem dev1 auto1 rfl rfl rfl

end Abode
